import Mathlib

/-!
Shallow embedding of the prediction-serving core of `ml-real-estate-app/app.py`
(Finance-Hub). Machine floats are modelled as exact rationals; the opaque
scoring artifact is an uninterpreted function on feature vectors; the SQLite
audit table is an append-only list with an auto-increment id counter; the PDF
canvas is the ordered list of drawing commands issued to it.
-/

namespace FinanceHub

/-- A JSON-serializable value as produced by `json.dumps` on the request data
dict: numbers (parsed floats) or strings (raw categorical fields). -/
inductive JVal where
  | num (q : ℚ)
  | str (s : String)
deriving DecidableEq, Repr

/-- An insertion-ordered JSON object, as stored in `Prediction.input_json`. -/
abbrev Snapshot := List (String × JVal)

/-- A wall-clock timestamp (`datetime`), with the fields `strftime` reads. -/
structure DateTime where
  year : ℕ
  month : ℕ
  day : ℕ
  hour : ℕ
  minute : ℕ
  second : ℕ
deriving DecidableEq, Repr

/-- Zero-pad to two digits (`%m`, `%d`, `%H`, `%M`, `%S`). -/
def pad2 (n : ℕ) : String :=
  if n < 10 then "0" ++ toString n else toString n

/-- Zero-pad to four digits (`%Y`, and the `{:04d}` report-id format). -/
def pad4 (n : ℕ) : String :=
  let s := toString n
  String.mk (List.replicate (4 - s.length) '0') ++ s

/-- `timestamp.strftime("%Y-%m-%d %H:%M:%S")` from `download_report`. -/
def DateTime.strftime (t : DateTime) : String :=
  pad4 t.year ++ "-" ++ pad2 t.month ++ "-" ++ pad2 t.day ++ " " ++
    pad2 t.hour ++ ":" ++ pad2 t.minute ++ ":" ++ pad2 t.second

/-- The `Prediction` ORM model (app.py lines 42-49): one immutable audit row. -/
structure Prediction where
  id : ℕ
  type : String
  input_json : Snapshot
  result_text : String
  confidence : ℚ
  timestamp : DateTime
  user_id : ℕ
deriving DecidableEq, Repr

/-- The audit table: insertion-ordered rows plus the auto-increment counter. -/
structure Store where
  recs : List Prediction
  nextId : ℕ
deriving DecidableEq, Repr

/-- `Prediction.query.get(i)`: primary-key lookup. -/
def Store.getById (st : Store) (i : ℕ) : Option Prediction :=
  st.recs.find? (fun r => r.id == i)

/-- Dashboard history query: `filter_by(user_id).order_by(timestamp.desc()).limit(5)`.
Rows are inserted in timestamp order, so descending timestamp is reverse
insertion order. -/
def Store.history (st : Store) (uid : ℕ) : List Prediction :=
  (List.reverse (st.recs.filter (fun r => r.user_id == uid))).take 5

/-- `db.session.add(pred_entry); db.session.commit()`: the new row takes the
auto-increment id, the column default `confidence=94.2`, and the current
timestamp; it is appended to the table. -/
def Store.add (st : Store) (t : String) (snap : Snapshot) (txt : String)
    (uid : ℕ) (now : DateTime) : Prediction × Store :=
  let p : Prediction := ⟨st.nextId, t, snap, txt, (94.2 : ℚ), now, uid⟩
  (p, ⟨st.recs ++ [p], st.nextId + 1⟩)

/-- The submitted HTML form: ordered string-keyed string values. -/
abbrev Form := List (String × String)

/-- `request.form[k]` as a total lookup (`none` when the key is absent, in
which case the real lookup raises `BadRequestKeyError`). -/
def formGet (form : Form) (k : String) : Option String :=
  (form.find? (fun p => p.1 == k)).map (fun p => p.2)

/-- Value of an ASCII digit string. -/
def digitsVal (cs : List Char) : ℕ :=
  cs.foldl (fun n c => 10 * n + (c.toNat - 48)) 0

/-- Models CPython `float(s)` on plain decimal literals: optional sign, digits,
optional fractional part. Exponents, `inf`/`nan`, surrounding whitespace and
underscores are omitted; no claim depends on them. The result is the exact
rational value. -/
def parseFloat? (s : String) : Option ℚ :=
  let cs := s.toList
  let signed : ℚ × List Char :=
    match cs with
    | '-' :: r => (-1, r)
    | '+' :: r => (1, r)
    | r => (1, r)
  let intPart := signed.2.takeWhile Char.isDigit
  let rest := signed.2.dropWhile Char.isDigit
  match rest with
  | [] =>
    if intPart.isEmpty then none
    else some (signed.1 * (digitsVal intPart : ℚ))
  | '.' :: frac =>
    if frac.all Char.isDigit && !(intPart.isEmpty && frac.isEmpty) then
      some (signed.1 *
        ((digitsVal intPart : ℚ) + (digitsVal frac : ℚ) / (10 : ℚ) ^ frac.length))
    else none
  | _ => none

/-- A single-quote character, for reproducing CPython error messages. -/
def sq : String := String.mk ['\x27']

/-- `str(e)` of the `BadRequestKeyError` werkzeug raises for a missing form
key: the generic 400 description; it does not mention the key. -/
def badRequestMsg : String :=
  "400 Bad Request: The browser (or proxy) sent a request that the " ++
    "server could not understand."

/-- `float(request.form[k])` inside the handler try-block: a missing key
raises `BadRequestKeyError`, an unparseable value raises
`ValueError: could not convert string to float: <value>`; the handler catches
either and shows `str(e)`. -/
def getNum (form : Form) (k : String) : Except String ℚ :=
  match formGet form k with
  | none => Except.error badRequestMsg
  | some v =>
    match parseFloat? v with
    | none =>
      Except.error ("could not convert string to float: " ++ sq ++ v ++ sq)
    | some q => Except.ok q

/-- `request.form[k]` fetched raw (the loan categorical fields). -/
def getStr (form : Form) (k : String) : Except String String :=
  match formGet form k with
  | none => Except.error badRequestMsg
  | some v => Except.ok v

/-- The `data` dict built by `predict_house`: seven parsed numeric fields. -/
structure HouseData where
  bedrooms : ℚ
  bathrooms : ℚ
  flat_area : ℚ
  lot_area : ℚ
  condition : ℚ
  grade : ℚ
  zipcode : ℚ
deriving DecidableEq, Repr

/-- Builds the house `data` dict; the first field that is missing or fails
`float()` aborts the whole build with that exception's message. -/
def buildHouseData (form : Form) : Except String HouseData := do
  let bedrooms ← getNum form "bedrooms"
  let bathrooms ← getNum form "bathrooms"
  let flat_area ← getNum form "flat_area"
  let lot_area ← getNum form "lot_area"
  let condition ← getNum form "condition"
  let grade ← getNum form "grade"
  let zipcode ← getNum form "zipcode"
  pure ⟨bedrooms, bathrooms, flat_area, lot_area, condition, grade, zipcode⟩

/-- `json.dumps(data)` for the house dict, kept as the parsed JSON object
(the serialization is injective on these objects). -/
def houseSnapshot (d : HouseData) : Snapshot :=
  [("bedrooms", JVal.num d.bedrooms), ("bathrooms", JVal.num d.bathrooms),
   ("flat_area", JVal.num d.flat_area), ("lot_area", JVal.num d.lot_area),
   ("condition", JVal.num d.condition), ("grade", JVal.num d.grade),
   ("zipcode", JVal.num d.zipcode)]

/-- `np.array(list(data.values()))`: the house feature vector. -/
def houseFeatures (d : HouseData) : List ℚ :=
  [d.bedrooms, d.bathrooms, d.flat_area, d.lot_area, d.condition, d.grade,
   d.zipcode]

/-- The `data` dict built by `predict_loan`: five parsed numeric fields and
three raw categorical strings. -/
structure LoanData where
  applicant_income : ℚ
  coapplicant_income : ℚ
  loan_amount : ℚ
  loan_term : ℚ
  credit_history : ℚ
  property_area : String
  married : String
  education : String
deriving DecidableEq, Repr

/-- Builds the loan `data` dict, in source field order. -/
def buildLoanData (form : Form) : Except String LoanData := do
  let applicant_income ← getNum form "applicant_income"
  let coapplicant_income ← getNum form "coapplicant_income"
  let loan_amount ← getNum form "loan_amount"
  let loan_term ← getNum form "loan_term"
  let credit_history ← getNum form "credit_history"
  let property_area ← getStr form "property_area"
  let married ← getStr form "married"
  let education ← getStr form "education"
  pure ⟨applicant_income, coapplicant_income, loan_amount, loan_term,
    credit_history, property_area, married, education⟩

/-- `area_map = {"Urban": 0, "Semiurban": 1, "Rural": 2}`. -/
def area_map : List (String × ℚ) :=
  [("Urban", 0), ("Semiurban", 1), ("Rural", 2)]

/-- `area_map.get(v, 0)`: dict lookup with lenient default `0`. -/
def areaMapGet (s : String) : ℚ :=
  ((area_map.find? (fun p => p.1 == s)).map (fun p => p.2)).getD 0

/-- `json.dumps(data)` for the loan dict: numeric fields as parsed numbers,
categorical fields as the raw strings. -/
def loanSnapshot (d : LoanData) : Snapshot :=
  [("applicant_income", JVal.num d.applicant_income),
   ("coapplicant_income", JVal.num d.coapplicant_income),
   ("loan_amount", JVal.num d.loan_amount),
   ("loan_term", JVal.num d.loan_term),
   ("credit_history", JVal.num d.credit_history),
   ("property_area", JVal.str d.property_area),
   ("married", JVal.str d.married),
   ("education", JVal.str d.education)]

/-- The loan feature list: numeric fields, then the encoded categoricals. -/
def loanFeatures (d : LoanData) : List ℚ :=
  [d.applicant_income, d.coapplicant_income, d.loan_amount, d.loan_term,
   d.credit_history, areaMapGet d.property_area,
   if d.married == "Yes" then 1 else 0,
   if d.education == "Graduate" then 1 else 0]

/-- The opaque scoring artifact: `model.predict` on one feature vector,
returning the single output value `prediction[0]`. -/
abbrev Model := List ℚ → ℚ

/-- `load_model(path)` (app.py lines 59-62): returns the artifact when the
file is present and loadable, else `None`. The disk state at call time is the
`disk` argument. -/
def load_model (disk : Option Model) : Option Model := disk

/-- Group a reversed ASCII digit list in threes (thousands separators). -/
def group3 : List Char → List Char
  | a :: b :: c :: d :: rest => a :: b :: c :: ',' :: group3 (d :: rest)
  | l => l

/-- Insert thousands separators into a digit string. -/
def commaGroup (s : String) : String :=
  String.mk (group3 s.toList.reverse).reverse

/-- `f"${x:,.2f}"`: currency format with thousands separators and two
decimals. Ties round half-up on the exact rational; the binary-float format
differs only at exact half-cent values, which no claim exercises. -/
def formatCurrency (q : ℚ) : String :=
  let cents : ℤ := ⌊q * 100 + 1 / 2⌋
  let sign := if cents < 0 then "-" else ""
  let n := cents.natAbs
  "$" ++ sign ++ commaGroup (toString (n / 100)) ++ "." ++ pad2 (n % 100)

/-- Outcome of a predict endpoint: the degraded-service page, the generic
data-error page, or the result page with the new audit id. -/
inductive PredictOut where
  | degraded (msg : String)
  | dataError (msg : String)
  | ok (text : String) (predId : ℕ)
deriving DecidableEq, Repr

/-- `PredictOut.isOk`: whether the request produced a scored result. -/
def PredictOut.isOk : PredictOut → Bool
  | PredictOut.ok _ _ => true
  | _ => false

/-- One predict invocation's observable effect: the response, the new value of
the per-kind model global, and the new audit table. -/
structure PredictStep where
  out : PredictOut
  cache : Option Model
  store : Store

/-- `predict_house` (app.py lines 225-273). `cache` is the `house_model`
global on entry, `disk` the artifact file state at this call. -/
def predict_house (cache disk : Option Model) (form : Form) (uid : ℕ)
    (now : DateTime) (st : Store) : PredictStep :=
  let cache1 : Option Model :=
    match cache with
    | some m => some m
    | none => load_model disk
  match cache1 with
  | none =>
    ⟨PredictOut.degraded
        "System Upgrade in Progress: House Model currently offline.",
      cache1, st⟩
  | some model =>
    match buildHouseData form with
    | Except.error e =>
      ⟨PredictOut.dataError ("Data processing error: " ++ e), cache1, st⟩
    | Except.ok d =>
      let output := formatCurrency (model (houseFeatures d))
      let res := Store.add st "house" (houseSnapshot d) output uid now
      ⟨PredictOut.ok output res.1.id, cache1, res.2⟩

/-- `predict_loan` (app.py lines 275-333). -/
def predict_loan (cache disk : Option Model) (form : Form) (uid : ℕ)
    (now : DateTime) (st : Store) : PredictStep :=
  let cache1 : Option Model :=
    match cache with
    | some m => some m
    | none => load_model disk
  match cache1 with
  | none =>
    ⟨PredictOut.degraded
        "System Upgrade in Progress: Loan Engine currently offline.",
      cache1, st⟩
  | some model =>
    match buildLoanData form with
    | Except.error e =>
      ⟨PredictOut.dataError ("Analysis engine error: " ++ e), cache1, st⟩
    | Except.ok d =>
      let result :=
        if model (loanFeatures d) == 1 then "Approved ✅"
        else "Flagged for Review ❌"
      let res := Store.add st "loan" (loanSnapshot d) result uid now
      ⟨PredictOut.ok result res.1.id, cache1, res.2⟩

/-- Python `str.title()` on ASCII: uppercase a letter after a non-letter,
lowercase a letter after a letter. -/
def titleChars : List Char → Bool → List Char
  | [], _ => []
  | c :: rest, prevAlpha =>
    (if prevAlpha then c.toLower else c.toUpper) :: titleChars rest c.isAlpha

/-- `s.title()`. -/
def titleStr (s : String) : String := String.mk (titleChars s.toList false)

/-- `key.replace("_", " ")`. -/
def underscoreToSpace (s : String) : String :=
  String.mk (s.toList.map (fun c => if c == '_' then ' ' else c))

/-- Python `str()` of a stored float value, decimal form: integers print with
a trailing `.0`; the stored rationals come from parsed decimals, whose lowest
terms have ten-smooth denominators, so a scale is always found. -/
def ratStr (q : ℚ) : String :=
  let sign := if q < 0 then "-" else ""
  let n := q.num.natAbs
  let d := q.den
  match (List.range 41).find? (fun k => 10 ^ k % d == 0) with
  | some k =>
    if k == 0 then sign ++ toString n ++ ".0"
    else
      let ds0 := (toString (n * (10 ^ k / d))).toList
      let ds := List.replicate (k + 1 - ds0.length) '0' ++ ds0
      sign ++ String.mk (ds.take (ds.length - k)) ++ "." ++
        String.mk (ds.drop (ds.length - k))
  | none => sign ++ toString n ++ "/" ++ toString d

/-- `f"{val}"` for a value read back from the stored JSON snapshot. -/
def jvalStr : JVal → String
  | JVal.num q => ratStr q
  | JVal.str s => s

/-- One reportlab canvas call issued by `download_report`, with its literal
arguments. The PDF bytes are the serialization of this command stream. -/
inductive DrawCmd where
  | setFont (font : String) (size : ℕ)
  | drawString (x : ℤ) (y : ℤ) (text : String)
  | line (x1 y1 x2 y2 : ℤ)
  | setFillColorRGB (r g b : ℚ)
  | setFillBlack
  | showPage
deriving DecidableEq, Repr

/-- The input-parameters loop: one line per snapshot entry, descending 15
points per line from the given start. -/
def inputLines : Snapshot → ℤ → List DrawCmd
  | [], _ => []
  | (k, v) :: rest, y =>
    DrawCmd.drawString 120 y
        ("- " ++ titleStr (underscoreToSpace k) ++ ": " ++ jvalStr v) ::
      inputLines rest (y - 15)

/-- The canvas command stream of `download_report` (app.py lines 165-210) for
one audit row and the owner's display name. `now` is the wall clock at render
time; the code never reads it, only the record's own timestamp. -/
def renderReport (now : DateTime) (pred : Prediction) (ownerName : String) :
    List DrawCmd :=
  let y1 : ℤ := 580 - 15 * pred.input_json.length
  let y2 : ℤ := y1 - 25
  let y3 : ℤ := y2 - 30
  [DrawCmd.setFont "Helvetica-Bold" 24,
   DrawCmd.drawString 100 750 "TrustBridge Bank",
   DrawCmd.setFont "Helvetica" 12,
   DrawCmd.drawString 100 735 "Official Financial Analysis Report",
   DrawCmd.line 100 730 500 730,
   DrawCmd.setFont "Helvetica-Bold" 12,
   DrawCmd.drawString 100 700 ("Report ID: TB-" ++ pad4 pred.id),
   DrawCmd.drawString 100 685 ("Date: " ++ pred.timestamp.strftime),
   DrawCmd.drawString 100 670 ("Client Name: " ++ ownerName),
   DrawCmd.setFont "Helvetica-Bold" 14,
   DrawCmd.drawString 100 630 ("Analysis Type: " ++ titleStr pred.type ++
     " Prediction"),
   DrawCmd.setFont "Helvetica" 12,
   DrawCmd.drawString 100 600 "Input Parameters:"] ++
  inputLines pred.input_json 580 ++
  [DrawCmd.setFont "Helvetica-Bold" 16,
   DrawCmd.setFillColorRGB (6 / 100) (9 / 100) (16 / 100),
   DrawCmd.drawString 100 y2 ("FINAL DETERMINATION: " ++ pred.result_text),
   DrawCmd.setFont "Helvetica-Oblique" 12,
   DrawCmd.setFillBlack,
   DrawCmd.drawString 100 y3 ("Analytical Confidence: " ++
     ratStr pred.confidence ++ "%"),
   DrawCmd.setFont "Helvetica" 8,
   DrawCmd.drawString 100 50 ("DISCLAIMER: This report is for advisory " ++
     "purposes only. Not a formal financial commitment."),
   DrawCmd.drawString 100 40 "TrustBridge Bank © 2026. All Rights Reserved.",
   DrawCmd.showPage]

/-- Outcome of the report endpoint: 404, 403, or the document byte stream
(as its canvas command stream). -/
inductive ReportResult where
  | notFound
  | forbidden
  | file (cmds : List DrawCmd)
deriving DecidableEq, Repr

/-- `download_report` (app.py lines 158-213): `get_or_404`, then the owner
check `pred.user_id != current_user.id`, then the PDF is generated. -/
def download_report (st : Store) (predictionId : ℕ) (uid : ℕ)
    (ownerName : String) (now : DateTime) : ReportResult :=
  match Store.getById st predictionId with
  | none => ReportResult.notFound
  | some pred =>
    if pred.user_id ≠ uid then ReportResult.forbidden
    else ReportResult.file (renderReport now pred ownerName)

/-- One core operation against the audit store, with everything else it
reads as arguments. -/
inductive CoreOp where
  | predictHouse (cache disk : Option Model) (form : Form) (uid : ℕ)
      (now : DateTime)
  | predictLoan (cache disk : Option Model) (form : Form) (uid : ℕ)
      (now : DateTime)
  | report (predictionId uid : ℕ) (ownerName : String) (now : DateTime)
  | history (uid : ℕ)

/-- The store after one core operation: the predict endpoints may append one
row; report and history only read. -/
def applyOp (st : Store) : CoreOp → Store
  | CoreOp.predictHouse cache disk form uid now =>
    (predict_house cache disk form uid now st).store
  | CoreOp.predictLoan cache disk form uid now =>
    (predict_loan cache disk form uid now st).store
  | CoreOp.report _ _ _ _ => st
  | CoreOp.history _ => st

/-- Store well-formedness: rows are in strictly increasing id order and all
ids are below the auto-increment counter. -/
def WF (st : Store) : Prop :=
  st.recs.Pairwise (fun a b => a.id < b.id) ∧ ∀ r ∈ st.recs, r.id < st.nextId

/-! Concrete fixtures used by witnesses and counterexamples. -/

/-- The spec's house scenario form: bedrooms 3, bathrooms 2, flat_area 1800,
lot_area 5000, condition 4, grade 7, zipcode 98001. -/
def cHouseForm : Form :=
  [("bedrooms", "3"), ("bathrooms", "2"), ("flat_area", "1800"),
   ("lot_area", "5000"), ("condition", "4"), ("grade", "7"),
   ("zipcode", "98001")]

/-- The parsed house scenario data. -/
def cHouseData : HouseData := ⟨3, 2, 1800, 5000, 4, 7, 98001⟩

/-- The house scenario form with an unparseable `bedrooms` value. -/
def cBadForm : Form :=
  [("bedrooms", "abc"), ("bathrooms", "2"), ("flat_area", "1800"),
   ("lot_area", "5000"), ("condition", "4"), ("grade", "7"),
   ("zipcode", "98001")]

/-- The spec's loan scenario form: `property_area="Rural"`, `married="Yes"`,
`education="Graduate"`, with plain numeric fields. -/
def cLoanForm : Form :=
  [("applicant_income", "5000"), ("coapplicant_income", "0"),
   ("loan_amount", "200"), ("loan_term", "360"), ("credit_history", "1"),
   ("property_area", "Rural"), ("married", "Yes"), ("education", "Graduate")]

/-- The parsed loan scenario data. -/
def cLoanData : LoanData := ⟨5000, 0, 200, 360, 1, "Rural", "Yes", "Graduate"⟩

/-- A concrete loaded artifact that scores every vector as `7`. -/
def cModel : Model := fun _ => 7

/-- A concrete loaded artifact that scores every vector as `2`, a class
outside the loan model's documented `{0, 1}` contract. -/
def cModel2 : Model := fun _ => 2

/-- A concrete timestamp. -/
def t0 : DateTime := ⟨2026, 1, 2, 3, 4, 5⟩

/-- The empty audit table (auto-increment counters start at 1). -/
def st0 : Store := ⟨[], 1⟩

/-- The required house field names, in source order. -/
def houseFieldNames : List String :=
  ["bedrooms", "bathrooms", "flat_area", "lot_area", "condition", "grade",
   "zipcode"]

/-- Modelled from the claim's words, for comparison with the code's snapshot:
"a serialized copy of the original raw request fields as submitted" — each
field name paired with the raw submitted string. -/
def rawSubmittedSnapshot (form : Form) (keys : List String) : Snapshot :=
  keys.filterMap (fun k => (formGet form k).map (fun v => (k, JVal.str v)))

/-- Whether `pat` occurs as a contiguous substring of `s`. -/
def strContains (s pat : String) : Bool :=
  s.toList.tails.any (fun t => pat.toList.isPrefixOf t)

/-! Helper lemmas. -/

/-- A successful `find?` is preserved by appending. -/
lemma find?_append_left {α} (l l' : List α) (f : α → Bool) (a : α)
    (h : l.find? f = some a) : (l ++ l').find? f = some a := by
  rw [List.find?_append, h]; rfl

/-- In a list of rows with strictly increasing ids, a row is determined by
its id. -/
lemma pairwise_id_unique {l : List Prediction}
    (hp : l.Pairwise (fun a b => a.id < b.id)) {p q : Prediction}
    (hq : q ∈ l) (hpl : p ∈ l) (h : q.id = p.id) : q = p := by
  induction l with
  | nil => cases hq
  | cons x xs ih =>
    rcases List.pairwise_cons.mp hp with ⟨hx, hxs⟩
    rcases List.mem_cons.mp hq with hq1 | hq2 <;>
      rcases List.mem_cons.mp hpl with hp1 | hp2
    · rw [hq1, hp1]
    · exact absurd (h ▸ hq1 ▸ hx p hp2) (lt_irrefl _)
    · exact absurd (hp1 ▸ h ▸ hx q hq2) (lt_irrefl _)
    · exact ih hxs hq2 hp2

/-- Everything the history view shows is a row of the table. -/
lemma mem_history_mem_recs {st : Store} {uid : ℕ} {q : Prediction}
    (h : q ∈ Store.history st uid) : q ∈ st.recs := by
  have h1 := List.take_subset 5 _ h
  rw [List.mem_reverse] at h1
  exact List.mem_of_mem_filter h1

/-- The house endpoint either leaves the audit table alone or performs
exactly one `Store.add` of a house row. -/
lemma predict_house_store_cases (cache disk : Option Model) (form : Form)
    (uid : ℕ) (now : DateTime) (st : Store) :
    (predict_house cache disk form uid now st).store = st ∨
    ∃ d : HouseData, buildHouseData form = Except.ok d ∧
      (predict_house cache disk form uid now st).store =
        (Store.add st "house" (houseSnapshot d)
          (formatCurrency ((cache.getD (disk.getD cModel)) (houseFeatures d)))
          uid now).2 := by
  rcases cache with _ | m
  · rcases disk with _ | m
    · left; rfl
    · rcases h : buildHouseData form with e | d
      · left; simp [predict_house, load_model, h]
      · right; exact ⟨d, rfl, by simp [predict_house, load_model, h]⟩
  · rcases h : buildHouseData form with e | d
    · left; simp [predict_house, load_model, h]
    · right; exact ⟨d, rfl, by simp [predict_house, load_model, h]⟩

/-- The loan endpoint either leaves the audit table alone or performs
exactly one `Store.add` of a loan row. -/
lemma predict_loan_store_cases (cache disk : Option Model) (form : Form)
    (uid : ℕ) (now : DateTime) (st : Store) :
    (predict_loan cache disk form uid now st).store = st ∨
    ∃ d : LoanData, buildLoanData form = Except.ok d ∧
      (predict_loan cache disk form uid now st).store =
        (Store.add st "loan" (loanSnapshot d)
          (if (cache.getD (disk.getD cModel)) (loanFeatures d) == 1
            then "Approved ✅" else "Flagged for Review ❌")
          uid now).2 := by
  rcases cache with _ | m
  · rcases disk with _ | m
    · left; rfl
    · rcases h : buildLoanData form with e | d
      · left; simp [predict_loan, load_model, h]
      · right; exact ⟨d, rfl, by simp [predict_loan, load_model, h]⟩
  · rcases h : buildLoanData form with e | d
    · left; simp [predict_loan, load_model, h]
    · right; exact ⟨d, rfl, by simp [predict_loan, load_model, h]⟩

/-- The audit table after any core operation is either unchanged or extended
by one fresh row carrying the auto-increment id. -/
lemma applyOp_recs_cases (st : Store) (op : CoreOp) :
    applyOp st op = st ∨
    ∃ p : Prediction, p.id = st.nextId ∧
      (applyOp st op).recs = st.recs ++ [p] ∧
      (applyOp st op).nextId = st.nextId + 1 := by
  rcases op with ⟨cache, disk, form, uid, now⟩ | ⟨cache, disk, form, uid, now⟩ |
    ⟨rid, uid, name, now⟩ | uid
  · rcases predict_house_store_cases cache disk form uid now st with h | ⟨d, _, h⟩
    · left; exact h
    · right
      exact ⟨_, rfl, by rw [applyOp, h]; exact ⟨rfl, rfl⟩⟩
  · rcases predict_loan_store_cases cache disk form uid now st with h | ⟨d, _, h⟩
    · left; exact h
    · right
      exact ⟨_, rfl, by rw [applyOp, h]; exact ⟨rfl, rfl⟩⟩
  · left; rfl
  · left; rfl

/-- Evaluation: the house scenario form parses to the expected data. -/
lemma buildHouseData_eval : buildHouseData cHouseForm = Except.ok cHouseData := by
  simp [buildHouseData, getNum, formGet, parseFloat?, digitsVal, cHouseForm,
    cHouseData, List.find?]
  rfl

/-- Evaluation: the loan scenario form parses to the expected data. -/
lemma buildLoanData_eval : buildLoanData cLoanForm = Except.ok cLoanData := by
  simp [buildLoanData, getNum, getStr, formGet, parseFloat?, digitsVal,
    cLoanForm, cLoanData, List.find?]
  rfl

/-- Evaluation: the bad house form fails on `bedrooms` with the `float()`
message, which names the value, not the field. -/
lemma buildHouseData_bad_eval :
    buildHouseData cBadForm =
      Except.error ("could not convert string to float: " ++ sq ++ "abc" ++ sq) := by
  simp [buildHouseData, getNum, formGet, parseFloat?, digitsVal, cBadForm,
    List.find?]
  rfl

/-- Evaluation: the constant-7 artifact's output formats as `$7.00`. -/
lemma formatCurrency_eval : formatCurrency 7 = "$7.00" := by
  norm_num [formatCurrency, commaGroup, group3, pad2]
  decide

/-- `area_map.get` as the claim spells it out. -/
lemma areaMapGet_eq (s : String) :
    areaMapGet s =
      if s = "Urban" then 0 else if s = "Semiurban" then 1
      else if s = "Rural" then 2 else 0 := by
  by_cases h1 : s = "Urban"
  · subst h1; simp [areaMapGet, area_map, List.find?]
  · by_cases h2 : s = "Semiurban"
    · subst h2; simp [areaMapGet, area_map, List.find?]
    · by_cases h3 : s = "Rural"
      · subst h3; simp [areaMapGet, area_map, List.find?]
      · have b1 : ("Urban" == s) = false := beq_eq_false_iff_ne.mpr (Ne.symm h1)
        have b2 : ("Semiurban" == s) = false := beq_eq_false_iff_ne.mpr (Ne.symm h2)
        have b3 : ("Rural" == s) = false := beq_eq_false_iff_ne.mpr (Ne.symm h3)
        simp [areaMapGet, area_map, List.find?, b1, b2, b3, h1, h2, h3]

/-! Claim theorems. -/

/-- Claim C1: in the loan feature build, `property_area` encodes to 0 for
"Urban", 1 for "Semiurban", 2 for "Rural" and 0 for any other raw value;
`married` encodes to 1 exactly when the raw value is "Yes" and `education`
to 1 exactly when it is "Graduate"; so `property_area="Rural"`,
`married="Yes"`, `education="Graduate"` yields encoded tail `[2, 1, 1]`. -/
theorem C1_loan_categorical_encoding :
    (∀ d : LoanData,
      (loanFeatures d).drop 5 =
        [if d.property_area = "Urban" then 0
         else if d.property_area = "Semiurban" then 1
         else if d.property_area = "Rural" then 2 else (0 : ℚ),
         if d.married = "Yes" then 1 else 0,
         if d.education = "Graduate" then 1 else 0]) ∧
    (∀ d : LoanData, d.property_area = "Rural" → d.married = "Yes" →
      d.education = "Graduate" → (loanFeatures d).drop 5 = [2, 1, 1]) := by
  have key : ∀ d : LoanData,
      (loanFeatures d).drop 5 =
        [if d.property_area = "Urban" then 0
         else if d.property_area = "Semiurban" then 1
         else if d.property_area = "Rural" then 2 else (0 : ℚ),
         if d.married = "Yes" then 1 else 0,
         if d.education = "Graduate" then 1 else 0] := by
    intro d
    simp only [loanFeatures, areaMapGet_eq, List.drop, beq_iff_eq]
  refine ⟨key, fun d h1 h2 h3 => ?_⟩
  rw [key d, h1, h2, h3]
  simp

/-- Witness for C1 at the spec's loan scenario data. -/
theorem C1_witness : (loanFeatures cLoanData).drop 5 = [2, 1, 1] :=
  C1_loan_categorical_encoding.2 cLoanData rfl rfl rfl

/-- Claim C3: a prediction request that ends degraded (model not loadable) or
in a validation error creates no audit record: the store is unchanged. In
particular the spec's house scenario against an unavailable model yields the
degraded-service message and writes nothing. -/
theorem C3_no_side_effect_on_error :
    (∀ (cache disk : Option Model) (form : Form) (uid : ℕ) (now : DateTime)
        (st : Store),
      ((predict_house cache disk form uid now st).out.isOk = false →
        (predict_house cache disk form uid now st).store = st) ∧
      ((predict_loan cache disk form uid now st).out.isOk = false →
        (predict_loan cache disk form uid now st).store = st)) ∧
    (∀ (uid : ℕ) (now : DateTime) (st : Store),
      (predict_house none none cHouseForm uid now st).out =
        PredictOut.degraded
          "System Upgrade in Progress: House Model currently offline." ∧
      (predict_house none none cHouseForm uid now st).store = st) := by
  constructor
  · intro cache disk form uid now st
    constructor
    · intro hok
      rcases predict_house_store_cases cache disk form uid now st with h | ⟨d, hb, h⟩
      · exact h
      · exfalso
        rcases cache with _ | m
        · rcases disk with _ | m
          · have hn := congrArg Store.nextId h
            simp [predict_house, load_model, Store.add] at hn
          · simp [predict_house, load_model, hb, PredictOut.isOk] at hok
        · simp [predict_house, load_model, hb, PredictOut.isOk] at hok
    · intro hok
      rcases predict_loan_store_cases cache disk form uid now st with h | ⟨d, hb, h⟩
      · exact h
      · exfalso
        rcases cache with _ | m
        · rcases disk with _ | m
          · have hn := congrArg Store.nextId h
            simp [predict_loan, load_model, Store.add] at hn
          · simp [predict_loan, load_model, hb, PredictOut.isOk] at hok
        · simp [predict_loan, load_model, hb, PredictOut.isOk] at hok
  · intro uid now st
    exact ⟨rfl, rfl⟩

/-- Witness for C3: the scenario request against an empty disk leaves the
empty store untouched. -/
theorem C3_witness :
    (predict_house none none cHouseForm 1 t0 st0).store = st0 :=
  (C3_no_side_effect_on_error.1 none none cHouseForm 1 t0 st0).1 rfl

/-- Claim C5: the report endpoint returns NotFound when no record has the
requested id, Forbidden (no bytes) when the record's owner differs from the
requesting identity, and the rendered byte stream only when the record exists
and is owned by the requester. -/
theorem C5_report_access_control (st : Store) (rid uid : ℕ) (name : String)
    (now : DateTime) :
    (Store.getById st rid = none →
      download_report st rid uid name now = ReportResult.notFound) ∧
    (∀ p, Store.getById st rid = some p → p.user_id ≠ uid →
      download_report st rid uid name now = ReportResult.forbidden) ∧
    (∀ p, Store.getById st rid = some p → p.user_id = uid →
      download_report st rid uid name now =
        ReportResult.file (renderReport now p name)) := by
  refine ⟨fun h => ?_, fun p h hne => ?_, fun p h he => ?_⟩
  · simp [download_report, h]
  · simp [download_report, h, hne]
  · simp [download_report, h, he]

/-- Witness for C5: a record owned by user 7 requested by user 99 is
Forbidden. -/
theorem C5_witness :
    download_report ⟨[⟨1, "house", [], "$7.00", (94.2 : ℚ), t0, 7⟩], 2⟩ 1 99
      "Eve" t0 = ReportResult.forbidden :=
  (C5_report_access_control ⟨[⟨1, "house", [], "$7.00", (94.2 : ℚ), t0, 7⟩], 2⟩
      1 99 "Eve" t0).2.1
    ⟨1, "house", [], "$7.00", (94.2 : ℚ), t0, 7⟩ rfl (by decide)

/-- Claim C6: report rendering is a pure function of the audit record and the
owner display name; the wall clock at render time does not influence the
command stream (only the record's own timestamp appears), so two invocations
on the same record and owner produce identical output. -/
theorem C6_render_pure :
    ∀ (t1 t2 : DateTime) (pred : Prediction) (name : String) (st : Store)
      (rid uid : ℕ),
      renderReport t1 pred name = renderReport t2 pred name ∧
      download_report st rid uid name t1 = download_report st rid uid name t2 := by
  intro t1 t2 pred name st rid uid
  refine ⟨rfl, ?_⟩
  unfold download_report
  cases Store.getById st rid <;> rfl

/-- Claim C8 counterexample: a failed load is retried. The first house
request with the artifact absent fails degraded and leaves the cache global
unset (`none`) rather than in a sticky Unavailable state; a later request in
the same process (cache still `none`) with the artifact now on disk performs
the load again and succeeds. -/
theorem C8_counterexample :
    (predict_house none none cHouseForm 1 t0 st0).cache = none ∧
    (predict_house none none cHouseForm 1 t0 st0).out =
      PredictOut.degraded
        "System Upgrade in Progress: House Model currently offline." ∧
    (predict_house none (some cModel) cHouseForm 1 t0 st0).out =
      PredictOut.ok "$7.00" 1 := by
  refine ⟨rfl, rfl, ?_⟩
  simp [predict_house, load_model, buildHouseData_eval, cModel,
    formatCurrency_eval, Store.add, st0]

/-- Claim C8 amended: the per-kind cache is monotonic once Ready — with a
loaded model the disk is never consulted again and the cache keeps that
model — but a load failure leaves the cache uninitialized (`none`), so the
next request for the same kind attempts the load again: from an
uninitialized cache, the new cache state is exactly the current disk read. -/
theorem C8_cache_monotonic_amended :
    (∀ (m : Model) (disk disk' : Option Model) (form : Form) (uid : ℕ)
        (now : DateTime) (st : Store),
      predict_house (some m) disk form uid now st =
        predict_house (some m) disk' form uid now st ∧
      predict_loan (some m) disk form uid now st =
        predict_loan (some m) disk' form uid now st) ∧
    (∀ (m : Model) (disk : Option Model) (form : Form) (uid : ℕ)
        (now : DateTime) (st : Store),
      (predict_house (some m) disk form uid now st).cache = some m ∧
      (predict_loan (some m) disk form uid now st).cache = some m) ∧
    (∀ (disk : Option Model) (form : Form) (uid : ℕ) (now : DateTime)
        (st : Store),
      (predict_house none disk form uid now st).cache = load_model disk ∧
      (predict_loan none disk form uid now st).cache = load_model disk) := by
  refine ⟨fun m disk disk' form uid now st => ⟨rfl, rfl⟩,
    fun m disk form uid now st => ⟨?_, ?_⟩,
    fun disk form uid now st => ⟨?_, ?_⟩⟩
  · rcases h : buildHouseData form with e | d <;> simp [predict_house, h]
  · rcases h : buildLoanData form with e | d <;> simp [predict_loan, h]
  · rcases disk with _ | m
    · rfl
    · rcases h : buildHouseData form with e | d <;>
        simp [predict_house, load_model, h]
  · rcases disk with _ | m
    · rfl
    · rcases h : buildLoanData form with e | d <;>
        simp [predict_loan, load_model, h]

/-- Claim C4: an audit record is write-once. If a well-formed store holds
record `p` under id `i`, then after any core operation the lookup by `i`
still returns `p` with all its fields, and any record the history view shows
under that id is exactly `p`. -/
theorem C4_audit_immutability (st : Store) (op : CoreOp) (i : ℕ)
    (p : Prediction) (hwf : WF st) (hget : Store.getById st i = some p) :
    Store.getById (applyOp st op) i = some p ∧
    ∀ uid q, q ∈ Store.history (applyOp st op) uid → q.id = i → q = p := by
  have hpid : p.id = i := by
    have := List.find?_some hget
    simpa [beq_iff_eq] using this
  have hpmem : p ∈ st.recs := List.mem_of_find?_eq_some hget
  rcases applyOp_recs_cases st op with h | ⟨q0, hq0, hrecs, _⟩
  · rw [h]
    refine ⟨hget, fun uid q hq hqi => ?_⟩
    exact pairwise_id_unique hwf.1 (mem_history_mem_recs hq) hpmem
      (hqi.trans hpid.symm)
  · have hpair : (applyOp st op).recs.Pairwise (fun a b => a.id < b.id) := by
      rw [hrecs]
      refine List.pairwise_append.mpr ⟨hwf.1, List.pairwise_singleton _ _,
        fun a ha b hb => ?_⟩
      rw [List.mem_singleton.mp hb, hq0]
      exact hwf.2 a ha
    constructor
    · unfold Store.getById
      rw [hrecs]
      exact find?_append_left _ _ _ _ hget
    · intro uid q hq hqi
      have hqmem := mem_history_mem_recs hq
      have hpmem2 : p ∈ (applyOp st op).recs := by
        rw [hrecs]; exact List.mem_append_left _ hpmem
      exact pairwise_id_unique hpair hqmem hpmem2 (hqi.trans hpid.symm)

/-- Witness for C4 at a concrete one-row store and a history read. -/
theorem C4_witness :
    Store.getById (applyOp ⟨[⟨1, "house", [], "$7.00", (94.2 : ℚ), t0, 7⟩], 2⟩
        (CoreOp.history 7)) 1 =
      some ⟨1, "house", [], "$7.00", (94.2 : ℚ), t0, 7⟩ :=
  (C4_audit_immutability ⟨[⟨1, "house", [], "$7.00", (94.2 : ℚ), t0, 7⟩], 2⟩
      (CoreOp.history 7) 1 ⟨1, "house", [], "$7.00", (94.2 : ℚ), t0, 7⟩
      ⟨List.pairwise_singleton _ _, by simp⟩
      (by simp [Store.getById, List.find?])).1

/-- Claim C10: every audit record created by either prediction endpoint has
confidence exactly 94.2 — the `Prediction` column default is unconditionally
in effect, as neither path supplies a confidence at creation. -/
theorem C10_confidence_constant (st : Store) (cache disk : Option Model)
    (form : Form) (uid : ℕ) (now : DateTime) (p : Prediction) :
    (p ∈ (predict_house cache disk form uid now st).store.recs →
      p ∈ st.recs ∨ p.confidence = (94.2 : ℚ)) ∧
    (p ∈ (predict_loan cache disk form uid now st).store.recs →
      p ∈ st.recs ∨ p.confidence = (94.2 : ℚ)) := by
  constructor
  · intro hp
    rcases predict_house_store_cases cache disk form uid now st with h | ⟨d, _, h⟩
    · rw [h] at hp; exact Or.inl hp
    · rw [h] at hp
      rcases List.mem_append.mp hp with hl | hr
      · exact Or.inl hl
      · right
        rw [List.mem_singleton.mp hr]
  · intro hp
    rcases predict_loan_store_cases cache disk form uid now st with h | ⟨d, _, h⟩
    · rw [h] at hp; exact Or.inl hp
    · rw [h] at hp
      rcases List.mem_append.mp hp with hl | hr
      · exact Or.inl hl
      · right
        rw [List.mem_singleton.mp hr]

/-- Witness for C10: the record created by the successful scenario house
request has confidence 94.2 (it is not in the initially empty store). -/
theorem C10_witness :
    (⟨1, "house", houseSnapshot cHouseData, "$7.00", (94.2 : ℚ), t0, 9⟩ :
        Prediction) ∈ st0.recs ∨
    (⟨1, "house", houseSnapshot cHouseData, "$7.00", (94.2 : ℚ), t0, 9⟩ :
        Prediction).confidence = (94.2 : ℚ) :=
  (C10_confidence_constant st0 (some cModel) none cHouseForm 9 t0
      ⟨1, "house", houseSnapshot cHouseData, "$7.00", (94.2 : ℚ), t0, 9⟩).1
    (by simp [predict_house, buildHouseData_eval, cModel, formatCurrency_eval,
      Store.add, st0])

/-- Claim C2 counterexample: a loan model output of 2 — outside the
documented binary contract — is not treated as an engine fault; the request
succeeds and the output is silently coerced to the "Flagged for Review"
label. -/
theorem C2_counterexample :
    (predict_loan (some cModel2) none cLoanForm 1 t0 st0).out =
      PredictOut.ok "Flagged for Review ❌" 1 := by
  simp [predict_loan, buildLoanData_eval, cModel2, Store.add, st0, beq_iff_eq]

/-- Claim C2 amended: when the loan model output equals 1 the display text is
the fixed "Approved ✅" label; for any other output — 0 or an unexpected
class alike — it is the fixed "Flagged for Review ❌" label; there is no
fault path for unexpected outputs. -/
theorem C2_loan_label_amended (m : Model) (d : LoanData) (form : Form)
    (disk : Option Model) (uid : ℕ) (now : DateTime) (st : Store)
    (h : buildLoanData form = Except.ok d) :
    (predict_loan (some m) disk form uid now st).out =
      PredictOut.ok
        (if m (loanFeatures d) = 1 then "Approved ✅"
         else "Flagged for Review ❌") st.nextId := by
  simp [predict_loan, h, Store.add, beq_iff_eq]

/-- Witness for C2 at the constant-7 model: 7 ≠ 1, so the flagged label. -/
theorem C2_witness :
    (predict_loan (some cModel) none cLoanForm 7 t0 st0).out =
      PredictOut.ok "Flagged for Review ❌" 1 := by
  rw [C2_loan_label_amended cModel cLoanData cLoanForm none 7 t0 st0
    buildLoanData_eval]
  norm_num [cModel, st0]

/-- Claim C7 counterexample: for the scenario house request the stored
snapshot holds the parsed number 3 for `bedrooms`, not the submitted raw
string "3": it differs from a serialized copy of the raw fields as
submitted. -/
theorem C7_counterexample :
    (Store.getById (predict_house (some cModel) none cHouseForm 1 t0 st0).store
        1).map Prediction.input_json = some (houseSnapshot cHouseData) ∧
    houseSnapshot cHouseData ≠ rawSubmittedSnapshot cHouseForm houseFieldNames := by
  constructor
  · simp [predict_house, buildHouseData_eval, cModel, formatCurrency_eval,
      Store.add, st0, Store.getById, List.find?]
    rfl
  · intro hcontra
    simp [houseSnapshot, rawSubmittedSnapshot, cHouseData, cHouseForm,
      houseFieldNames, formGet, List.find?] at hcontra

/-- Claim C7 amended: the created record's snapshot is the parsed request
data — numeric fields as their parsed numeric values, and the loan
categorical fields as the raw submitted strings (never their encoded
codes). -/
theorem C7_snapshot_amended :
    (∀ (form : Form) (v1 v2 v3 v4 v5 v6 v7 : String) (q1 q2 q3 q4 q5 q6 q7 : ℚ)
        (m : Model) (disk : Option Model) (uid : ℕ) (now : DateTime)
        (st : Store),
      formGet form "bedrooms" = some v1 → parseFloat? v1 = some q1 →
      formGet form "bathrooms" = some v2 → parseFloat? v2 = some q2 →
      formGet form "flat_area" = some v3 → parseFloat? v3 = some q3 →
      formGet form "lot_area" = some v4 → parseFloat? v4 = some q4 →
      formGet form "condition" = some v5 → parseFloat? v5 = some q5 →
      formGet form "grade" = some v6 → parseFloat? v6 = some q6 →
      formGet form "zipcode" = some v7 → parseFloat? v7 = some q7 →
      (predict_house (some m) disk form uid now st).store.recs =
        st.recs ++ [⟨st.nextId, "house",
          houseSnapshot ⟨q1, q2, q3, q4, q5, q6, q7⟩,
          formatCurrency (m (houseFeatures ⟨q1, q2, q3, q4, q5, q6, q7⟩)),
          (94.2 : ℚ), now, uid⟩]) ∧
    (∀ (form : Form) (v1 v2 v3 v4 v5 : String) (q1 q2 q3 q4 q5 : ℚ)
        (s6 s7 s8 : String) (m : Model) (disk : Option Model) (uid : ℕ)
        (now : DateTime) (st : Store),
      formGet form "applicant_income" = some v1 → parseFloat? v1 = some q1 →
      formGet form "coapplicant_income" = some v2 → parseFloat? v2 = some q2 →
      formGet form "loan_amount" = some v3 → parseFloat? v3 = some q3 →
      formGet form "loan_term" = some v4 → parseFloat? v4 = some q4 →
      formGet form "credit_history" = some v5 → parseFloat? v5 = some q5 →
      formGet form "property_area" = some s6 →
      formGet form "married" = some s7 →
      formGet form "education" = some s8 →
      (predict_loan (some m) disk form uid now st).store.recs =
        st.recs ++ [⟨st.nextId, "loan",
          loanSnapshot ⟨q1, q2, q3, q4, q5, s6, s7, s8⟩,
          (if m (loanFeatures ⟨q1, q2, q3, q4, q5, s6, s7, s8⟩) = 1
            then "Approved ✅" else "Flagged for Review ❌"),
          (94.2 : ℚ), now, uid⟩]) := by
  constructor
  · intro form v1 v2 v3 v4 v5 v6 v7 q1 q2 q3 q4 q5 q6 q7 m disk uid now st
      hb1 hp1 hb2 hp2 hb3 hp3 hb4 hp4 hb5 hp5 hb6 hp6 hb7 hp7
    have hbuild : buildHouseData form = Except.ok ⟨q1, q2, q3, q4, q5, q6, q7⟩ := by
      simp [buildHouseData, getNum, hb1, hp1, hb2, hp2, hb3, hp3, hb4, hp4,
        hb5, hp5, hb6, hp6, hb7, hp7]
      rfl
    simp [predict_house, hbuild, Store.add]
  · intro form v1 v2 v3 v4 v5 q1 q2 q3 q4 q5 s6 s7 s8 m disk uid now st
      hb1 hp1 hb2 hp2 hb3 hp3 hb4 hp4 hb5 hp5 hs6 hs7 hs8
    have hbuild : buildLoanData form =
        Except.ok ⟨q1, q2, q3, q4, q5, s6, s7, s8⟩ := by
      simp [buildLoanData, getNum, getStr, hb1, hp1, hb2, hp2, hb3, hp3,
        hb4, hp4, hb5, hp5, hs6, hs7, hs8]
      rfl
    simp [predict_loan, hbuild, Store.add, beq_iff_eq]

/-- Witness for C7 at the scenario loan form: the raw strings "Rural",
"Yes", "Graduate" land in the snapshot as submitted. -/
theorem C7_witness :
    (predict_loan (some cModel) none cLoanForm 9 t0 st0).store.recs =
      st0.recs ++ [⟨st0.nextId, "loan", loanSnapshot cLoanData,
        (if cModel (loanFeatures cLoanData) = 1
          then "Approved ✅" else "Flagged for Review ❌"),
        (94.2 : ℚ), t0, 9⟩] :=
  C7_snapshot_amended.2 cLoanForm "5000" "0" "200" "360" "1" 5000 0 200 360 1
    "Rural" "Yes" "Graduate" cModel none 9 t0 st0
    rfl (by simp [parseFloat?, digitsVal]) rfl (by simp [parseFloat?, digitsVal])
    rfl (by simp [parseFloat?, digitsVal]) rfl (by simp [parseFloat?, digitsVal])
    rfl (by simp [parseFloat?, digitsVal]) rfl rfl rfl

/-- Claim C9 counterexample: with `bedrooms="abc"` the request fails with the
generic data-processing message, which carries the offending raw value but
does not name the offending field — "bedrooms" does not occur in it. -/
theorem C9_counterexample :
    (predict_house (some cModel) none cBadForm 1 t0 st0).out =
      PredictOut.dataError ("Data processing error: " ++
        ("could not convert string to float: " ++ sq ++ "abc" ++ sq)) ∧
    strContains ("Data processing error: " ++
      ("could not convert string to float: " ++ sq ++ "abc" ++ sq))
      "bedrooms" = false ∧
    (predict_house (some cModel) none cBadForm 1 t0 st0).store = st0 := by
  refine ⟨?_, by decide, ?_⟩
  · simp [predict_house, buildHouseData_bad_eval]
  · simp [predict_house, buildHouseData_bad_eval]

/-- Claim C9 amended: a required numeric field that is missing or
unparseable aborts the build all-or-nothing — the request returns the
wrapped exception message and no audit record is created — but the message
names the offending raw value (the `float()` error), not the field. -/
theorem C9_validation_amended :
    (∀ (m : Model) (disk : Option Model) (form : Form) (uid : ℕ)
        (now : DateTime) (st : Store) (e : String),
      buildHouseData form = Except.error e →
      (predict_house (some m) disk form uid now st).out =
        PredictOut.dataError ("Data processing error: " ++ e) ∧
      (predict_house (some m) disk form uid now st).store = st) ∧
    (∀ (m : Model) (disk : Option Model) (form : Form) (uid : ℕ)
        (now : DateTime) (st : Store) (e : String),
      buildLoanData form = Except.error e →
      (predict_loan (some m) disk form uid now st).out =
        PredictOut.dataError ("Analysis engine error: " ++ e) ∧
      (predict_loan (some m) disk form uid now st).store = st) ∧
    (∀ (form : Form) (v : String), formGet form "bedrooms" = some v →
      parseFloat? v = none →
      buildHouseData form =
        Except.error ("could not convert string to float: " ++ sq ++ v ++ sq)) := by
  refine ⟨fun m disk form uid now st e h => ?_,
    fun m disk form uid now st e h => ?_, fun form v h1 h2 => ?_⟩
  · constructor <;> simp [predict_house, h]
  · constructor <;> simp [predict_loan, h]
  · simp [buildHouseData, getNum, h1, h2]
    rfl

/-- Witness for C9 at the bad house form against a loaded model. -/
theorem C9_witness :
    (predict_house (some cModel) none cBadForm 1 t0 st0).out =
      PredictOut.dataError ("Data processing error: " ++
        ("could not convert string to float: " ++ sq ++ "abc" ++ sq)) ∧
    (predict_house (some cModel) none cBadForm 1 t0 st0).store = st0 :=
  C9_validation_amended.1 cModel none cBadForm 1 t0 st0 _ buildHouseData_bad_eval

end FinanceHub
